import Mathlib

/-!
Verification development for the `TaskNode` pipeline node renderer
(src/packages/module/src/pipelines/components/nodes/TaskNode.tsx).

The component draws a rounded pill for a pipeline task. Its computational
content is:
  * a memoized layout pass computing horizontal offsets from measured
    child sizes (`React.useMemo`, lines 210-284);
  * a collapse decision in `renderTask` (lines 363-398);
  * a badge tooltip/popover decision (lines 350-361);
  * a run-status class and shadow-filter decision (lines 306-321);
  * a label truncation plus tooltip decision (lines 161, 417-424);
  * an effect rewriting the `indent` field of each source edge
    (lines 286-294);
  * the `isNode` guard in the outer `TaskNode` wrapper (lines 531-533).

Numbers are modelled as rationals: the JavaScript arithmetic involved is
addition, subtraction, multiplication by 2 and 0.75 and division by 2 and 4,
which is exact on the doubles produced by DOM measurements at the scale of
UI layout, and the spec claims are about the algebraic structure of the
offsets, not float rounding.

Values that JavaScript tests for truthiness (optional props, measured
sizes) are modelled as `Option` or `Bool`; a `badge : string` prop is
truthy exactly when it is present and nonempty.
-/

/-- Modelled from the spec: the run status enumeration (`RunStatus` in
pipelines/types, not under src/). The spec and the source reference
Failed, FailedToStart, Cancelled, Running, InProgress; the remaining
constructors stand for the other execution states of a pipeline task. -/
inductive RunStatus where
  | Succeeded
  | Failed
  | FailedToStart
  | Running
  | InProgress
  | Cancelled
  | Pending
  | Skipped
  | Idle
deriving DecidableEq, Repr

/-- Modelled from the spec: the discrete zoom-dependent rendering tier
(`ScaleDetailsLevel` in types, not under src/): low, medium, high. -/
inductive ScaleDetailsLevel where
  | low
  | medium
  | high
deriving DecidableEq, Repr

/-- A measured width/height pair, as returned by `useSize`. -/
structure Size where
  width : ℚ
  height : ℚ
deriving DecidableEq, Repr

/-- Width of a possibly missing measurement. JavaScript reads `.width`
only behind a truthiness guard on the size object (the unguarded
`leadSize.width` read is reached only when `leadIcon` is set, at which
point a measurement exists once rendered); a missing size contributes 0. -/
def optWidth : Option Size → ℚ
  | some s => s.width
  | none => 0

/-- Truthiness of an optional string prop: present and nonempty. -/
def strTruthy : Option String → Bool
  | some s => s ≠ ""
  | none => false

/-- The inputs of the layout `useMemo` (TaskNode.tsx lines 263-284, the
dependency list): measured sizes, paddings, and presence of the optional
sub-elements. `taskIconClass`, `taskIcon`, `leadIcon`, `actionIcon` and
`onContextMenu` enter the computation only through their truthiness. -/
structure LayoutInputs where
  textSize : Option Size
  paddingX : ℚ
  paddingY : ℚ
  taskIconClass : Bool
  taskIcon : Bool
  taskIconPadding : ℚ
  statusIconSize : ℚ
  status : Option RunStatus
  showStatusState : Bool
  statusSize : Option Size
  leadIcon : Bool
  leadSize : Option Size
  badge : Option String
  badgeSize : Option Size
  actionIcon : Bool
  actionSize : Option Size
  onContextMenu : Bool
  contextSize : Option Size
deriving DecidableEq, Repr

/-- The outputs of the layout `useMemo` (TaskNode.tsx lines 199-210). -/
structure LayoutOutputs where
  height : ℚ
  statusStartX : ℚ
  textStartX : ℚ
  actionStartX : ℚ
  contextStartX : ℚ
  pillWidth : ℚ
  badgeStartX : ℚ
  iconWidth : ℚ
  iconStartX : ℚ
  leadIconStartX : ℚ
deriving DecidableEq, Repr

/-- The layout pass (TaskNode.tsx lines 210-262): when the text label has
no measured size every output is 0; otherwise the offsets are an additive
chain built from the measured child sizes and paddings. -/
def computeLayout (i : LayoutInputs) : LayoutOutputs :=
  match i.textSize with
  | none =>
      { height := 0, statusStartX := 0, textStartX := 0, actionStartX := 0
        contextStartX := 0, pillWidth := 0, badgeStartX := 0, iconWidth := 0
        iconStartX := 0, leadIconStartX := 0 }
  | some ts =>
      let textWidth := ts.width
      let textHeight := ts.height
      let height := textHeight + 2 * i.paddingY
      let startX := i.paddingX + i.paddingX / 2
      let iconWidth := if i.taskIconClass || i.taskIcon then height - i.taskIconPadding else 0
      let iconStartX := -(iconWidth * (3 / 4))
      let statusStartX := startX - i.statusIconSize / 4
      let statusSpace :=
        if i.status.isSome && i.showStatusState && i.statusSize.isSome then
          optWidth i.statusSize + i.paddingX
        else 0
      let leadIconStartX := startX + statusSpace
      let leadIconSpace := if i.leadIcon then optWidth i.leadSize + i.paddingX else 0
      let textStartX := leadIconStartX + leadIconSpace
      let textSpace := textWidth + i.paddingX
      let badgeStartX := textStartX + textSpace
      let badgeSpace :=
        if strTruthy i.badge && i.badgeSize.isSome then optWidth i.badgeSize + i.paddingX else 0
      let actionStartX := badgeStartX + badgeSpace
      let actionSpace :=
        if i.actionIcon && i.actionSize.isSome then optWidth i.actionSize + i.paddingX else 0
      let contextStartX := actionStartX + actionSpace
      let contextSpace :=
        if i.onContextMenu && i.contextSize.isSome then optWidth i.contextSize + i.paddingX / 2 else 0
      let pillWidth := contextStartX + contextSpace + i.paddingX / 2
      { height := height, statusStartX := statusStartX, textStartX := textStartX
        actionStartX := actionStartX, contextStartX := contextStartX
        pillWidth := pillWidth, badgeStartX := badgeStartX, iconWidth := iconWidth
        iconStartX := iconStartX, leadIconStartX := leadIconStartX }

/-- The default `hiddenDetailsShownStatuses` prop value
(TaskNode.tsx line 125): statuses whose icon is still shown in the
collapsed rendering. -/
def hiddenDetailsShownStatusesDefault : List RunStatus :=
  [RunStatus.Failed, RunStatus.FailedToStart, RunStatus.Cancelled]

/-- Whether the status icon is drawn inside the collapsed status dot
(TaskNode.tsx line 382): `status && (!hiddenDetailsShownStatuses ||
hiddenDetailsShownStatuses.includes(status))`. A JavaScript array is
always truthy, so with the list prop present (it has a default value) the
`!hiddenDetailsShownStatuses` disjunct is always false. -/
def statusIconShownInCollapse (status : Option RunStatus) (hidden : List RunStatus) : Bool :=
  match status with
  | some s => hidden.contains s
  | none => false

/-- The shape of the tree `renderTask` returns: either the collapsed
minimal status dot (with or without a status icon inside) or the full
pill group. -/
inductive TaskRender where
  | collapsedDot (statusIconShown : Bool)
  | fullPill
deriving DecidableEq, Repr

/-- The branch decision of `renderTask` (TaskNode.tsx lines 363-399):
collapse to the minimal status dot exactly when `showStatusState` is set,
`scaleNode` is not, `hideDetailsAtMedium` is set and the details level is
not high; otherwise render the full pill. -/
def renderTask (showStatusState scaleNode hideDetailsAtMedium : Bool)
    (detailsLevel : ScaleDetailsLevel) (status : Option RunStatus)
    (hidden : List RunStatus) : TaskRender :=
  if showStatusState && !scaleNode && hideDetailsAtMedium
      && !(detailsLevel == ScaleDetailsLevel.high) then
    TaskRender.collapsedDot (statusIconShownInCollapse status hidden)
  else
    TaskRender.fullPill

/-- How the badge is rendered (TaskNode.tsx lines 336-361). -/
inductive BadgeRender where
  | noBadge
  | plain
  | withTooltip
  | withPopover
deriving DecidableEq, Repr

/-- The badge component decision (TaskNode.tsx lines 336-361):
`badgeLabel` exists when the `badge` string is truthy; a truthy
`badgeTooltip` wraps it in a Tooltip, else a present `badgePopoverParams`
wraps it in a Popover, else the bare label (or nothing) is rendered. -/
def badgeComponent (badge : Option String) (badgeTooltip badgePopoverParams : Bool) :
    BadgeRender :=
  let badgeLabel := strTruthy badge
  if badgeLabel && badgeTooltip then BadgeRender.withTooltip
  else if badgeLabel && badgePopoverParams then BadgeRender.withPopover
  else if badgeLabel then BadgeRender.plain
  else BadgeRender.noBadge

/-- Modelled from the spec: the CSS modifier classes that a run status is
mapped to (`getRunStatusModifier` and the style modifiers live outside
src/). Each constructor stands for a distinct, nonempty class name. -/
inductive Modifier where
  | danger
  | warning
  | success
  | info
  | pending
  | skipped
  | noStatus
deriving DecidableEq, Repr

/-- Modelled from the spec: `getRunStatusModifier` (pipelines/utils, not
under src/) maps the run status to the modifier class driving color:
failure statuses to the danger modifier, the others to their own tiers. -/
def getRunStatusModifier : Option RunStatus → Modifier
  | some RunStatus.Failed => Modifier.danger
  | some RunStatus.FailedToStart => Modifier.danger
  | some RunStatus.Cancelled => Modifier.warning
  | some RunStatus.Succeeded => Modifier.success
  | some RunStatus.Running => Modifier.info
  | some RunStatus.InProgress => Modifier.info
  | some RunStatus.Pending => Modifier.pending
  | some RunStatus.Idle => Modifier.pending
  | some RunStatus.Skipped => Modifier.skipped
  | none => Modifier.noStatus

/-- A class token appearing in the pill class list
(TaskNode.tsx lines 307-314). -/
inductive ClassToken where
  | pill
  | custom (s : String)
  | hoverModifier
  | statusModifier (m : Modifier)
  | selectedModifier
  | selectableModifier
deriving DecidableEq, Repr

/-- The pill class list (TaskNode.tsx lines 307-314): `css` keeps the
truthy arguments, so the base pill class and the run-status modifier are
always present while the others depend on props. -/
def pillClasses (className : Option String) (isHover : Bool) (m : Modifier)
    (selected hasOnSelect : Bool) : List ClassToken :=
  [some ClassToken.pill,
   className.map ClassToken.custom,
   if isHover then some ClassToken.hoverModifier else none,
   some (ClassToken.statusModifier m),
   if selected then some ClassToken.selectedModifier else none,
   if hasOnSelect then some ClassToken.selectableModifier else none].filterMap id

/-- The danger shadow filter id (NodeShadows, not under src/; the exact
string is irrelevant, only that the two ids differ). -/
def NODE_SHADOW_FILTER_ID_DANGER : String := "NodeShadowsFilterId--danger"

/-- The hover shadow filter id. -/
def NODE_SHADOW_FILTER_ID_HOVER : String := "NodeShadowsFilterId--hover"

/-- Modelled from the spec: `createSvgIdUrl` (utils, not under src/)
wraps a filter id into an SVG url reference. -/
def createSvgIdUrl (id : String) : String := "url(#" ++ id ++ ")"

/-- The SVG filter applied to the pill background
(TaskNode.tsx lines 316-321): the danger shadow when the run-status
modifier is the danger modifier, else the hover shadow when hovered and
the modifier is not one of `nonShadowModifiers`, else no filter. -/
def pillBackgroundFilter (m : Modifier) (isHover : Bool)
    (nonShadowModifiers : List Modifier) : Option String :=
  if m = Modifier.danger then some (createSvgIdUrl NODE_SHADOW_FILTER_ID_DANGER)
  else if isHover && !(nonShadowModifiers.contains m) then
    some (createSvgIdUrl NODE_SHADOW_FILTER_ID_HOVER)
  else none

/-- Modelled from the spec: `truncateMiddle` (utils/truncate-middle, not
under src/) shortens a string to at most `len` characters, keeping the
start and end and replacing the removed middle with `omission`; a string
already within the limit is returned unchanged. -/
def truncateMiddle (text : String) (len : Nat) (omission : String) : String :=
  if text.length ≤ len then text
  else
    let keep := len - omission.length
    let front := (keep + 1) / 2
    let back := keep - front
    String.mk (text.toList.take front) ++ omission ++
      String.mk (text.toList.drop (text.length - back))

/-- The default `truncateLength` prop value (TaskNode.tsx line 140). -/
def truncateLengthDefault : Nat := 14

/-- The rendered label text and its optional tooltip. -/
inductive LabelRender where
  | plainText (text : String)
  | withTooltip (text : String) (tooltipContent : String)
deriving DecidableEq, Repr

/-- The text of a label rendering. -/
def LabelRender.text : LabelRender → String
  | LabelRender.plainText t => t
  | LabelRender.withTooltip t _ => t

/-- The label rendering in the full pill (TaskNode.tsx lines 161 and
417-424): the text is the middle-truncated label; a tooltip holding the
untruncated label is attached when the truncation changed the label and
tooltips are not disabled. -/
def renderLabel (elementLabel : String) (truncateLength : Nat) (disableTooltip : Bool) :
    LabelRender :=
  let label := truncateMiddle elementLabel truncateLength "..."
  if elementLabel ≠ label && !disableTooltip then
    LabelRender.withTooltip label elementLabel
  else
    LabelRender.plainText label

/-- Edge auxiliary data, modelled as an association list from field name
to value (the effect only ever writes the rational `indent` field). -/
abbrev EdgeData := List (String × ℚ)

/-- Field lookup on edge data. -/
def lookupField (d : EdgeData) (k : String) : Option ℚ :=
  (d.find? (fun p => p.1 == k)).map (fun p => p.2)

/-- The object spread with override
`{ ...(data || {}), indent: v }` (TaskNode.tsx line 291): the previous
fields (none when the edge had no data) with `indent` set to `v`. -/
def spreadSetIndent (data : Option EdgeData) (v : ℚ) : EdgeData :=
  ("indent", v) :: (data.getD []).filter (fun p => p.1 != "indent")

/-- The new data for one source edge (TaskNode.tsx line 291): `indent`
becomes width minus pillWidth at high details level and 0 otherwise. -/
def updateEdgeIndent (data : Option EdgeData) (detailsLevel : ScaleDetailsLevel)
    (width pillWidth : ℚ) : EdgeData :=
  spreadSetIndent data
    (if detailsLevel == ScaleDetailsLevel.high then width - pillWidth else 0)

/-- The source-edge indent effect (TaskNode.tsx lines 286-294): every
outgoing edge gets its data replaced this way. -/
def updateSourceEdges (edges : List (Option EdgeData)) (detailsLevel : ScaleDetailsLevel)
    (width pillWidth : ℚ) : List EdgeData :=
  edges.map (fun d => updateEdgeIndent d detailsLevel width pillWidth)

/-- Modelled from the spec: the kinds of graph element (`isNode` and the
element classes live outside src/); a graph element is a graph, a node or
an edge, and `isNode` recognises the node kind. -/
inductive GraphElement where
  | node
  | edge
  | graph
deriving DecidableEq, Repr

/-- Modelled from the spec: `isNode` holds exactly on node elements. -/
def isNode : GraphElement → Bool
  | GraphElement.node => true
  | _ => false

/-- The outer `TaskNode` wrapper (TaskNode.tsx lines 515-550): throws on
a non-node element, otherwise hands the element to `TaskNodeInner`. The
`Except` value models throw versus successful render. -/
def TaskNode (element : GraphElement) : Except String GraphElement :=
  if isNode element then Except.ok element
  else Except.error "TaskNode must be used only on Node elements"

/-- A fully populated sample layout input used by the witnesses. -/
def sampleInputs : LayoutInputs :=
  { textSize := some ⟨60, 14⟩, paddingX := 8, paddingY := 8
    taskIconClass := true, taskIcon := false, taskIconPadding := 4
    statusIconSize := 16, status := some RunStatus.Running, showStatusState := true
    statusSize := some ⟨16, 16⟩, leadIcon := true, leadSize := some ⟨12, 12⟩
    badge := some "3/4", badgeSize := some ⟨20, 14⟩
    actionIcon := true, actionSize := some ⟨14, 14⟩
    onContextMenu := true, contextSize := some ⟨14, 14⟩ }

/-- C1: with a measured text label, the horizontal layout is the additive
chain of x-offsets: `leadIconStartX` is `paddingX + paddingX / 2` plus the
status space, `textStartX` adds the lead icon space, `badgeStartX` adds
text width plus `paddingX`, `actionStartX` adds the badge space,
`contextStartX` adds the action space, `pillWidth` adds the context space
plus `paddingX / 2`, and `height` is text height plus `2 * paddingY`. -/
theorem taskNode_layout_additive_chain (i : LayoutInputs) (ts : Size)
    (h : i.textSize = some ts) :
    (computeLayout i).leadIconStartX = i.paddingX + i.paddingX / 2 +
      (if i.status.isSome && i.showStatusState && i.statusSize.isSome then
        optWidth i.statusSize + i.paddingX else 0) ∧
    (computeLayout i).textStartX = (computeLayout i).leadIconStartX +
      (if i.leadIcon then optWidth i.leadSize + i.paddingX else 0) ∧
    (computeLayout i).badgeStartX = (computeLayout i).textStartX + ts.width + i.paddingX ∧
    (computeLayout i).actionStartX = (computeLayout i).badgeStartX +
      (if strTruthy i.badge && i.badgeSize.isSome then optWidth i.badgeSize + i.paddingX else 0) ∧
    (computeLayout i).contextStartX = (computeLayout i).actionStartX +
      (if i.actionIcon && i.actionSize.isSome then optWidth i.actionSize + i.paddingX else 0) ∧
    (computeLayout i).pillWidth = (computeLayout i).contextStartX +
      (if i.onContextMenu && i.contextSize.isSome then
        optWidth i.contextSize + i.paddingX / 2 else 0) + i.paddingX / 2 ∧
    (computeLayout i).height = ts.height + 2 * i.paddingY := by
  simp only [computeLayout, h, true_and, and_true]
  ring

/-- Witness for C1 at the sample input. -/
theorem taskNode_layout_additive_chain_witness :
    sampleInputs.textSize = some ⟨60, 14⟩ ∧
    (computeLayout sampleInputs).pillWidth = (computeLayout sampleInputs).contextStartX +
      (if sampleInputs.onContextMenu && sampleInputs.contextSize.isSome then
        optWidth sampleInputs.contextSize + sampleInputs.paddingX / 2 else 0) +
      sampleInputs.paddingX / 2 :=
  ⟨by decide, (taskNode_layout_additive_chain sampleInputs ⟨60, 14⟩ (by decide)).2.2.2.2.2.1⟩

/-- C2: with a measured text label and non-negative paddings, status icon
size and measured widths, the offsets increase left to right:
statusStartX, leadIconStartX, textStartX, badgeStartX, actionStartX,
contextStartX and pillWidth form a monotone chain. -/
theorem taskNode_layout_monotone (i : LayoutInputs) (ts : Size)
    (h : i.textSize = some ts)
    (hpx : 0 ≤ i.paddingX) (hpy : 0 ≤ i.paddingY) (hsis : 0 ≤ i.statusIconSize)
    (htw : 0 ≤ ts.width)
    (hs : 0 ≤ optWidth i.statusSize) (hl : 0 ≤ optWidth i.leadSize)
    (hb : 0 ≤ optWidth i.badgeSize) (ha : 0 ≤ optWidth i.actionSize)
    (hc : 0 ≤ optWidth i.contextSize) :
    (computeLayout i).statusStartX ≤ (computeLayout i).leadIconStartX ∧
    (computeLayout i).leadIconStartX ≤ (computeLayout i).textStartX ∧
    (computeLayout i).textStartX ≤ (computeLayout i).badgeStartX ∧
    (computeLayout i).badgeStartX ≤ (computeLayout i).actionStartX ∧
    (computeLayout i).actionStartX ≤ (computeLayout i).contextStartX ∧
    (computeLayout i).contextStartX ≤ (computeLayout i).pillWidth := by
  simp only [computeLayout, h]
  refine ⟨?_, ?_, ?_, ?_, ?_, ?_⟩ <;> dsimp only <;> split_ifs <;> linarith

/-- Witness for C2 at the sample input. -/
theorem taskNode_layout_monotone_witness :
    sampleInputs.textSize = some ⟨60, 14⟩ ∧
    (computeLayout sampleInputs).statusStartX ≤ (computeLayout sampleInputs).leadIconStartX :=
  ⟨by decide,
    (taskNode_layout_monotone sampleInputs ⟨60, 14⟩ (by decide) (by decide) (by decide)
      (by decide) (by decide) (by decide) (by decide) (by decide) (by decide) (by decide)).1⟩

/-- C10: with no measured text size, every layout output is zero. -/
theorem taskNode_layout_unmeasured_zero (i : LayoutInputs) (h : i.textSize = none) :
    computeLayout i =
      { height := 0, statusStartX := 0, textStartX := 0, actionStartX := 0
        contextStartX := 0, pillWidth := 0, badgeStartX := 0, iconWidth := 0
        iconStartX := 0, leadIconStartX := 0 } := by
  simp only [computeLayout, h]

/-- Witness for C10: the sample input with the text size removed. -/
theorem taskNode_layout_unmeasured_zero_witness :
    { sampleInputs with textSize := none : LayoutInputs }.textSize = none ∧
    computeLayout { sampleInputs with textSize := none } =
      { height := 0, statusStartX := 0, textStartX := 0, actionStartX := 0
        contextStartX := 0, pillWidth := 0, badgeStartX := 0, iconWidth := 0
        iconStartX := 0, leadIconStartX := 0 } :=
  ⟨rfl, taskNode_layout_unmeasured_zero { sampleInputs with textSize := none } rfl⟩

/-- C7: the layout pass is a deterministic pure function of its inputs:
two renders agreeing on every measured size, padding, icon size and
presence flag produce identical layout outputs. -/
theorem taskNode_layout_deterministic (a b : LayoutInputs)
    (h1 : a.textSize = b.textSize) (h2 : a.paddingX = b.paddingX)
    (h3 : a.paddingY = b.paddingY) (h4 : a.taskIconClass = b.taskIconClass)
    (h5 : a.taskIcon = b.taskIcon) (h6 : a.taskIconPadding = b.taskIconPadding)
    (h7 : a.statusIconSize = b.statusIconSize) (h8 : a.status = b.status)
    (h9 : a.showStatusState = b.showStatusState) (h10 : a.statusSize = b.statusSize)
    (h11 : a.leadIcon = b.leadIcon) (h12 : a.leadSize = b.leadSize)
    (h13 : a.badge = b.badge) (h14 : a.badgeSize = b.badgeSize)
    (h15 : a.actionIcon = b.actionIcon) (h16 : a.actionSize = b.actionSize)
    (h17 : a.onContextMenu = b.onContextMenu) (h18 : a.contextSize = b.contextSize) :
    computeLayout a = computeLayout b := by
  obtain ⟨_, _, _, _, _, _, _, _, _, _, _, _, _, _, _, _, _, _⟩ := a
  obtain ⟨_, _, _, _, _, _, _, _, _, _, _, _, _, _, _, _, _, _⟩ := b
  simp_all

/-- Witness for C7: two syntactically equal sample inputs. -/
theorem taskNode_layout_deterministic_witness :
    computeLayout sampleInputs = computeLayout sampleInputs :=
  taskNode_layout_deterministic sampleInputs sampleInputs rfl rfl rfl rfl rfl rfl rfl rfl
    rfl rfl rfl rfl rfl rfl rfl rfl rfl rfl

/-- C3: the collapsed minimal status dot is returned exactly when
`showStatusState` is true, `scaleNode` is not set, `hideDetailsAtMedium`
is true and the details level is not high; inside the collapsed dot the
status icon is drawn iff a status is set and belongs to
`hiddenDetailsShownStatuses`, whose default shows exactly Failed,
FailedToStart and Cancelled; in every other case the full pill renders. -/
theorem taskNode_renderTask_collapse (sss sn hdm : Bool) (dl : ScaleDetailsLevel)
    (st : Option RunStatus) (hidden : List RunStatus) :
    (renderTask sss sn hdm dl st hidden =
        TaskRender.collapsedDot (statusIconShownInCollapse st hidden) ↔
      sss = true ∧ sn = false ∧ hdm = true ∧ dl ≠ ScaleDetailsLevel.high) ∧
    (renderTask sss sn hdm dl st hidden = TaskRender.fullPill ↔
      ¬(sss = true ∧ sn = false ∧ hdm = true ∧ dl ≠ ScaleDetailsLevel.high)) ∧
    (statusIconShownInCollapse st hidden = true ↔ ∃ s, st = some s ∧ s ∈ hidden) ∧
    (statusIconShownInCollapse st hiddenDetailsShownStatusesDefault = true ↔
      st = some RunStatus.Failed ∨ st = some RunStatus.FailedToStart ∨
        st = some RunStatus.Cancelled) := by
  refine ⟨?_, ?_, ?_, ?_⟩
  · cases sss <;> cases sn <;> cases hdm <;> cases dl <;> simp [renderTask]
  · cases sss <;> cases sn <;> cases hdm <;> cases dl <;> simp [renderTask]
  · cases st <;> simp [statusIconShownInCollapse]
  · cases st with
    | none => decide
    | some s => cases s <;> decide

/-- C9: the badge wrapper decision: with a truthy badge, `badgeTooltip`
wins and yields a Tooltip, else `badgePopoverParams` yields a Popover,
else the bare badge; with no truthy badge nothing is rendered. -/
theorem taskNode_badgeComponent_spec (b : Option String) (t p : Bool) :
    (badgeComponent b t p = BadgeRender.withTooltip ↔ strTruthy b = true ∧ t = true) ∧
    (badgeComponent b t p = BadgeRender.withPopover ↔
      strTruthy b = true ∧ t = false ∧ p = true) ∧
    (badgeComponent b t p = BadgeRender.plain ↔
      strTruthy b = true ∧ t = false ∧ p = false) ∧
    (badgeComponent b t p = BadgeRender.noBadge ↔ strTruthy b = false) := by
  cases hb : strTruthy b <;> cases t <;> cases p <;> simp [badgeComponent, hb]

/-- The two shadow url references differ. -/
theorem dangerHoverUrlNe :
    createSvgIdUrl NODE_SHADOW_FILTER_ID_DANGER ≠ createSvgIdUrl NODE_SHADOW_FILTER_ID_HOVER := by
  decide

/-- C5: the pill class list always carries the run-status modifier, and
the background filter is the danger shadow iff that modifier is the
danger modifier (independently of hover), the hover shadow iff hovered
with a modifier outside `nonShadowModifiers` (and not danger), and absent
otherwise. -/
theorem taskNode_runStatusModifier_spec (st : Option RunStatus)
    (className : Option String) (isHover selected hasOnSelect : Bool)
    (nonShadow : List Modifier) :
    ClassToken.statusModifier (getRunStatusModifier st) ∈
      pillClasses className isHover (getRunStatusModifier st) selected hasOnSelect ∧
    (pillBackgroundFilter (getRunStatusModifier st) isHover nonShadow =
        some (createSvgIdUrl NODE_SHADOW_FILTER_ID_DANGER) ↔
      getRunStatusModifier st = Modifier.danger) ∧
    (pillBackgroundFilter (getRunStatusModifier st) isHover nonShadow =
        some (createSvgIdUrl NODE_SHADOW_FILTER_ID_HOVER) ↔
      getRunStatusModifier st ≠ Modifier.danger ∧ isHover = true ∧
        getRunStatusModifier st ∉ nonShadow) ∧
    (pillBackgroundFilter (getRunStatusModifier st) isHover nonShadow = none ↔
      getRunStatusModifier st ≠ Modifier.danger ∧
        (isHover = false ∨ getRunStatusModifier st ∈ nonShadow)) := by
  refine ⟨?_, ?_, ?_, ?_⟩
  · cases className <;> cases isHover <;> cases selected <;> cases hasOnSelect <;>
      simp [pillClasses]
  · unfold pillBackgroundFilter
    split_ifs with h1 h2 <;> simp_all [dangerHoverUrlNe.symm]
  · unfold pillBackgroundFilter
    split_ifs with h1 h2 <;> simp_all [dangerHoverUrlNe]
  · unfold pillBackgroundFilter
    split_ifs with h1 h2 <;> simp_all <;> cases isHover <;> simp_all

/-- C6: the rendered label text is the middle-truncated element label
(omission string three dots, default length 14), and the tooltip carrying
the untruncated label is attached iff the truncation changed the label
and tooltips are not disabled. -/
theorem taskNode_label_spec (el : String) (n : Nat) (dt : Bool) :
    (renderLabel el n dt).text = truncateMiddle el n "..." ∧
    (renderLabel el n dt = LabelRender.withTooltip (truncateMiddle el n "...") el ↔
      truncateMiddle el n "..." ≠ el ∧ dt = false) ∧
    truncateLengthDefault = 14 := by
  refine ⟨?_, ?_, rfl⟩
  · simp only [renderLabel]
    split <;> rfl
  · cases dt with
    | false =>
      by_cases h : el = truncateMiddle el n "..."
      · simp [renderLabel, h.symm]
      · have h2 : truncateMiddle el n "..." ≠ el := fun hh => h hh.symm
        simp [renderLabel, h, h2]
    | true =>
      by_cases h : el = truncateMiddle el n "..."
      · simp [renderLabel, h.symm]
      · simp [renderLabel, h]

/-- C8: the outer `TaskNode` throws the dedicated error exactly on
elements that are not nodes, and renders the inner component on every
node element. -/
theorem taskNode_isNode_guard (e : GraphElement) :
    (TaskNode e = Except.error "TaskNode must be used only on Node elements" ↔
      isNode e = false) ∧
    (TaskNode e = Except.ok e ↔ isNode e = true) := by
  cases e <;> simp [TaskNode, isNode]

/-- Filtering out the `indent` entries does not change lookups of other
fields. -/
theorem find_filter_indent (l : EdgeData) (k : String) (hk : k ≠ "indent") :
    (l.filter (fun p => p.1 != "indent")).find? (fun p => p.1 == k) =
      l.find? (fun p => p.1 == k) := by
  induction l with
  | nil => rfl
  | cons p t ih =>
    rw [List.filter_cons]
    by_cases hp : p.1 = "indent"
    · have h2 : (p.1 == k) = false := by
        simp only [beq_eq_false_iff_ne, ne_eq, hp]
        exact fun h => hk h.symm
      have h3 : (("indent" : String) == k) = false := by
        simp only [beq_eq_false_iff_ne, ne_eq]
        exact fun h => hk h.symm
      simp [hp, List.find?_cons, h2, h3, ih]
    · simp only [bne_iff_ne, ne_eq, hp, not_false_eq_true, if_pos]
      rw [List.find?_cons, List.find?_cons]
      cases hpk : (p.1 == k) <;> simp [ih]

/-- Looking up `indent` after the spread override yields the new value. -/
theorem lookupField_setIndent_same (data : Option EdgeData) (v : ℚ) :
    lookupField (spreadSetIndent data v) "indent" = some v := rfl

/-- Looking up any other field after the spread override yields the
previous value (over the empty object when the edge had no data). -/
theorem lookupField_setIndent_other (data : Option EdgeData) (v : ℚ) (k : String)
    (hk : k ≠ "indent") :
    lookupField (spreadSetIndent data v) k = lookupField (data.getD []) k := by
  unfold lookupField spreadSetIndent
  have h0 : (("indent", v).1 == k) = false := by
    simp only [beq_eq_false_iff_ne, ne_eq]
    exact fun h => hk h.symm
  rw [List.find?_cons, h0]
  rw [find_filter_indent _ k hk]

/-- C4: the source-edge indent effect replaces the data of each outgoing edge
with its previous data in which only `indent` changed: `indent` becomes
node width minus `pillWidth` at high details level and 0 otherwise, and
every other field is unchanged. -/
theorem taskNode_sourceEdge_indent (edges : List (Option EdgeData))
    (dl : ScaleDetailsLevel) (w pw : ℚ) (d : Option EdgeData) (hd : d ∈ edges) :
    updateEdgeIndent d dl w pw ∈ updateSourceEdges edges dl w pw ∧
    lookupField (updateEdgeIndent d dl w pw) "indent" =
      some (if dl = ScaleDetailsLevel.high then w - pw else 0) ∧
    ∀ k, k ≠ "indent" →
      lookupField (updateEdgeIndent d dl w pw) k = lookupField (d.getD []) k := by
  refine ⟨List.mem_map_of_mem _ hd, ?_, ?_⟩
  · unfold updateEdgeIndent
    rw [lookupField_setIndent_same]
    cases dl <;> simp
  · intro k hk
    exact lookupField_setIndent_other _ _ k hk

/-- Witness for C4: a node with two outgoing edges at high details
level. -/
theorem taskNode_sourceEdge_indent_witness :
    updateEdgeIndent (some [("color", 5)]) ScaleDetailsLevel.high 180 120 ∈
      updateSourceEdges [some [("color", 5)], none] ScaleDetailsLevel.high 180 120 ∧
    lookupField (updateEdgeIndent (some [("color", 5)]) ScaleDetailsLevel.high 180 120)
        "indent" =
      some (if ScaleDetailsLevel.high = ScaleDetailsLevel.high then 180 - 120 else 0) ∧
    lookupField (updateEdgeIndent (some [("color", 5)]) ScaleDetailsLevel.high 180 120)
        "color" = lookupField [("color", 5)] "color" :=
  ⟨(taskNode_sourceEdge_indent [some [("color", 5)], none] ScaleDetailsLevel.high 180 120
      (some [("color", 5)]) (by simp)).1,
   (taskNode_sourceEdge_indent [some [("color", 5)], none] ScaleDetailsLevel.high 180 120
      (some [("color", 5)]) (by simp)).2.1,
   (taskNode_sourceEdge_indent [some [("color", 5)], none] ScaleDetailsLevel.high 180 120
      (some [("color", 5)]) (by simp)).2.2 "color" (by decide)⟩
